import Mathlib

/-!
Verification development for the `microdrop-launcher` repository.

Shallow embedding of the launcher's core logic:

- the restart loop of `microdrop_launcher/profile.py` (`launch_profile`) and
  `microdrop_launcher/bin/launch.py` (`main`), including its working-directory
  save/chdir/restore discipline;
- the profile version-compatibility gate
  (`verify_profile_version`, `get_major_version` in `profile.py`);
- the Conda upgrade executor (`conda_upgrade`, `conda_version_info`,
  `f_major_version` in `microdrop_launcher/__init__.py`), with its
  output-parsing regexes modelled by specialised backtracking matchers;
- the profile registry load/save pipeline
  (`load_profiles_info` in `profile.py`, the save step of
  `bin/profile_launcher.py`);
- the major-version extraction of `bin/launch.py` (`get_major_version`);
- the JSON-decode guard of `microdrop_launcher/auto_upgrade.py`.

External effects (subprocess spawning, the file system, `os.environ`,
`json.loads`) are passed in explicitly as data or function parameters; Python
exceptions are modelled with `Except`/`Option`.
-/

namespace MicrodropLauncher

/-! ### String utilities

Python `str` containment (the `in` operator) and the whitespace class `\s`
used by the `re` patterns in `__init__.py`. -/

/-- Python regex whitespace class `\s` (ASCII). -/
def isPyWs (c : Char) : Bool :=
  c = ' ' || c = '\t' || c = '\n' || c = '\r' || c = '\x0b' || c = '\x0c'

/-- `hasPrefixL s pat` : `pat` is a prefix of `s` (character lists). -/
def hasPrefixL : List Char → List Char → Bool
  | _, [] => true
  | [], _ :: _ => false
  | c :: cs, p :: ps => c = p && hasPrefixL cs ps

/-- `containsL s pat` : `pat` occurs contiguously somewhere in `s`. -/
def containsL : List Char → List Char → Bool
  | [], pat => hasPrefixL [] pat
  | c :: cs, pat => hasPrefixL (c :: cs) pat || containsL cs pat

/-- Python `pat in s` on strings. -/
def strContains (s pat : String) : Bool :=
  containsL s.toList pat.toList

/-! ### Launch loop (`profile.py` lines 370-394, `bin/launch.py` lines 104-118)

```
return_code = None
while return_code is None or return_code == 5:
    return_code = sp.call(...)
```

The child process is modelled as the list of exit codes of its successive
invocations.  `run_launch_loop codes` returns the exit code the loop exits
with together with the number of child invocations made; `none` means the
supplied invocation list ran out with the loop still restarting. -/

def run_launch_loop : List Int → Option (Int × Nat)
  | [] => none
  | c :: rest =>
    if c = 5 then
      match run_launch_loop rest with
      | some (r, n) => some (r, n + 1)
      | none => none
    else
      some (c, 1)

/-! ### Working-directory discipline of `launch_profile` (`profile.py` 370-394)

```
original_directory = ph.path(os.getcwd())
try:
    os.chdir(config_file.parent)
    ...
    env = os.environ.copy()
    env['MICRODROP_PROFILE'] = str(profile_path)
    env['MICRODROP_CONFIG'] = str(config_file)
    while return_code is None or return_code == 5:
        return_code = sp.call(command, env=env, shell=True)
finally:
    os.chdir(original_directory)
return return_code
```

The caller-visible process state is the current working directory plus
`os.environ`.  Each child invocation either returns an exit code or raises;
the loop body re-raises any exception, and the `finally` clause restores the
working directory on both the normal-return and the exception path. -/

/-- Caller-visible process state: current working directory and environment. -/
structure World where
  cwd : String
  environ : List (String × String)
deriving DecidableEq, Repr

/-- Abstract exception raised by the child-spawning step (`sp.call`). -/
inductive ChildExc
  | err
deriving DecidableEq, Repr

/-- The restart loop where each invocation may raise.  Returns the loop
outcome (`Except` for normal exit vs. escaped exception), or `none` when the
invocation list ran out with the loop still restarting. -/
def run_loop_exc : List (Except ChildExc Int) → Option (Except ChildExc Int)
  | [] => none
  | .error e :: _ => some (.error e)
  | .ok c :: rest => if c = 5 then run_loop_exc rest else some (.ok c)

/-- `env[k] = v` on the association-list model of an environment dictionary. -/
def setEnvVar (env : List (String × String)) (k v : String) :
    List (String × String) :=
  env.filter (fun p => p.1 ≠ k) ++ [(k, v)]

/-- The directory/environment handling of `launch_profile` around the restart
loop.  `child` maps the environment dictionary passed to `sp.call` to the list
of that child's successive outcomes.  Result: the loop outcome (`none` when
the invocation list was exhausted, in which case the real loop has not
exited and the `finally` clause has not yet run) and the final `World`. -/
def launch_profile_dirs (w : World) (profile_path config_file config_parent :
    String) (child : List (String × String) → List (Except ChildExc Int)) :
    Option (Except ChildExc Int) × World :=
  let original_directory := w.cwd
  let w1 : World := { w with cwd := config_parent }
  let env := setEnvVar (setEnvVar w.environ "MICRODROP_PROFILE" profile_path)
      "MICRODROP_CONFIG" config_file
  match run_loop_exc (child env) with
  | some outcome => (some outcome, { w1 with cwd := original_directory })
  | none => (none, w1)

/-! ### Profile version gate (`profile.py` lines 28-32 and 191-232)

```
cre_version = re.compile(r'^(?P<major>\d+)\.')
get_major_version = lambda version: '{}.0'.format(cre_version.match(version)
                                                  .group('major'))
```

`re.match` anchors at the start: one or more digits, then a literal dot.
When the pattern does not match, `.group` raises `AttributeError` (modelled
by `none`). -/

namespace Profile

/-- `get_major_version` of `profile.py`: the leading digit run of `version`
followed by `".0"`; `none` when `version` does not start with digits followed
by a dot (the Python lambda raises `AttributeError` there). -/
def get_major_version (version : String) : Option String :=
  let digits := version.toList.takeWhile Char.isDigit
  let rest := version.toList.drop digits.length
  if digits ≠ [] ∧ rest.head? = some '.' then
    some (String.mk digits ++ ".0")
  else
    none

/-- Python exceptions escaping `verify_profile_version`. -/
inductive PyErr
  | ioError
  | versionError
  | attributeError
deriving DecidableEq, Repr

/-- `verify_profile_version` (`profile.py` 191-232).  `marker` is the first
line of the profile's `RELEASE-VERSION` file when that file exists, `none`
when it does not; `installed_version_str` is the installed MicroDrop package
version. -/
def verify_profile_version (marker : Option String)
    (installed_version_str : String) : Except PyErr Unit :=
  match marker with
  | none => .error .ioError
  | some release_version_str =>
    match get_major_version release_version_str,
        get_major_version installed_version_str with
    | some mr, some mi =>
      if mr = mi then .ok () else .error .versionError
    | _, _ => .error .attributeError

end Profile

/-! ### Major-version extraction of `bin/launch.py` (lines 13-25, 90-100)

```
def get_major_version(version):
    return sum([(pkg_resources.parse_version('%d.0' % i) <= version)
                for i in xrange(5)]) - 1
```

Versions are modelled as their PEP 440 release-component lists
(`pkg_resources.parse_version` on plain release versions); `<=` pads the
shorter list with zeros and compares lexicographically. -/

namespace LaunchBin

/-- PEP 440 release-tuple comparison: componentwise lexicographic with the
shorter tuple padded by zeros. -/
def verLe : List Nat → List Nat → Bool
  | [], [] => true
  | [], b :: bs => decide (0 < b) || (decide (b = 0) && verLe [] bs)
  | a :: as, [] => decide (a = 0) && verLe as []
  | a :: as, b :: bs => decide (a < b) || (decide (a = b) && verLe as bs)

/-- `get_major_version` of `bin/launch.py`: the number of `i` in `0..4` with
`parse_version('%d.0' % i) <= version`, minus one. -/
def get_major_version (version : List Nat) : Int :=
  ((List.range 5).countP (fun i => verLe [i, 0] version) : Int) - 1

/-- The compatibility gate of `bin/launch.py` `main` (lines 90-100): launch
proceeds exactly when the two major versions are equal. -/
def version_gate_passes (release_version installed_version : List Nat) :
    Bool :=
  get_major_version release_version = get_major_version installed_version

end LaunchBin

/-! ### Conda upgrade executor (`microdrop_launcher/__init__.py`)

`f_major_version`, `conda_version_info` (lines 206-248) and `conda_upgrade`
(lines 87-203).  The two `re` patterns used when parsing `conda install`
output are modelled by specialised matchers with Python's greedy-backtracking
semantics. -/

namespace CondaPkg

/-- Decimal reading of a digit list (`int` applied to a string of digits);
`none` models the `ValueError` that `int` raises on an empty or non-numeric
string. -/
def charsToNat? (l : List Char) : Option Nat :=
  if l ≠ [] ∧ l.all Char.isDigit then
    some (l.foldl (fun n c => 10 * n + (c.toNat - '0'.toNat)) 0)
  else
    none

/-- `f_major_version = lambda v: int(v.split('.')[0])` (`__init__.py` line
12): `v.split('.')[0]` is the run of characters before the first dot.  This
is the lambda's behaviour on an actual string argument (as
`microdrop_version.py` supplies via `['version']`); `conda_upgrade` instead
feeds it whole search records — see `f_major_version_on_record` below. -/
def f_major_version (v : String) : Option Nat :=
  charsToNat? (v.toList.takeWhile (fun c => c ≠ '.'))

/-- Candidate `(consumed, rest)` splits for a greedy `p*`-style regex
element: the maximal run of characters satisfying `p` first, backtracking
one character at a time down to `minLen` consumed characters. -/
def greedySplits (p : Char → Bool) (minLen : Nat) (l : List Char) :
    List (List Char × List Char) :=
  let maxRun := (l.takeWhile p).length
  (((List.range (maxRun + 1)).reverse).filter (fun k => minLen ≤ k)).map
    (fun k => (l.take k, l.drop k))

/-- Header literal of the NEW-packages regex of `conda_upgrade` (line 189).
Note the trailing colon, absent from the `elif` containment test. -/
def newPkgsHeader : List Char :=
  "The following NEW packages will be INSTALLED:".toList

/-- Trailing literal of the NEW-packages regex of `conda_upgrade`. -/
def linkingMarker : List Char := "Linking packages".toList

/-- Matcher for the part of the pattern after the header:
`\s+(?P<packages>.*)\s+Linking packages` with `re.DOTALL` (so `.` matches
newlines).  Returns the `packages` capture group. -/
def matchNewPkgsTail (l : List Char) : Option (List Char) :=
  (greedySplits isPyWs 1 l).findSome? (fun s1 =>
    (greedySplits (fun _ => true) 0 s1.2).findSome? (fun s2 =>
      (greedySplits isPyWs 1 s2.2).findSome? (fun s3 =>
        if hasPrefixL s3.2 linkingMarker then some s2.1 else none)))

/-- Match of the whole NEW-packages pattern anchored at the current
position. -/
def matchNewPkgsAt (l : List Char) : Option (List Char) :=
  if hasPrefixL l newPkgsHeader then
    matchNewPkgsTail (l.drop newPkgsHeader.length)
  else
    none

/-- `re.search` for the NEW-packages pattern: leftmost match wins. -/
def searchNewPkgs : List Char → Option (List Char)
  | [] => matchNewPkgsAt []
  | c :: cs =>
    match matchNewPkgsAt (c :: cs) with
    | some g => some g
    | none => searchNewPkgs cs

/-- Matcher for `cre_package` (`__init__.py` lines 192-193):
`\s*(?P<package>\S+):\s+(?P<version>\S+)-[^-]+\s+` anchored at the current
position, returning the two capture groups and the rest of the input after
the match. -/
def matchPkgAt (l : List Char) : Option ((String × String) × List Char) :=
  (greedySplits isPyWs 0 l).findSome? (fun s0 =>
    (greedySplits (fun c => !isPyWs c) 1 s0.2).findSome? (fun s1 =>
      match s1.2 with
      | ':' :: r2 =>
        (greedySplits isPyWs 1 r2).findSome? (fun s2 =>
          (greedySplits (fun c => !isPyWs c) 1 s2.2).findSome? (fun s3 =>
            match s3.2 with
            | '-' :: r4 =>
              (greedySplits (fun c => c ≠ '-') 1 r4).findSome? (fun s4 =>
                (greedySplits isPyWs 1 s4.2).findSome? (fun s5 =>
                  some ((String.mk s1.1, String.mk s3.1), s5.2)))
            | _ => none))
      | _ => none))

/-- Worker for `cre_package.finditer`: scan left to right, emitting
non-overlapping matches; advance one character when no match starts at the
current position.  The fuel is the input length (every step strictly
shortens the input, since each match consumes at least one character). -/
def finditerPkg : Nat → List Char → List (String × String)
  | 0, _ => []
  | _ + 1, [] => []
  | fuel + 1, c :: cs =>
    match matchPkgAt (c :: cs) with
    | some (g, rest) => g :: finditerPkg fuel rest
    | none => finditerPkg fuel cs

/-- `cre_package.finditer(packages_str)` with the two capture groups of each
match. -/
def cre_package_finditer (s : String) : List (String × String) :=
  finditerPkg s.toList.length s.toList

/-- The literal line tested first by `conda_upgrade` (line 186). -/
def already_installed_line : String :=
  "# All requested packages already installed."

/-- The containment test of the `elif` branch (line 188); no trailing
colon. -/
def new_packages_marker : String :=
  "The following NEW packages will be INSTALLED"

/-- One record of the decoded `conda search --json` output
(`json.loads(json_output)['microdrop']` is a list of such package-record
dictionaries, not of version strings); only the fields this code reads are
modelled. -/
structure SearchRecord where
  version : String
  installed : Bool
deriving DecidableEq, Repr

/-- Result dictionary of `conda_upgrade`: `original_version` is whatever
`version_info['installed']` held — a search record dictionary (or `None`),
**not** a version string; `new_version` is extracted from the install output
as a string; dependencies are `(package, version)` string pairs. -/
structure UpgradeResult where
  package : String
  original_version : Option SearchRecord
  new_version : Option String
  installed_dependencies : List (String × String)
deriving DecidableEq, Repr

/-- Python exceptions arising inside `conda_upgrade` and
`conda_version_info`. -/
inductive CondaErr
  | ioError
  | calledProcessError
  | distributionNotFound
  | indexError
  | valueError
  | attributeError
  | runtimeError
deriving DecidableEq, Repr

/-- The output-parsing tail of `conda_upgrade` (`__init__.py` lines
186-203).  `result` is the result dictionary as of line 150 (with
`new_version = None`); `output` is the captured subprocess output.
`Except.error .attributeError` models the `AttributeError` raised by
`match.group('packages')` when `re.search` returned `None`. -/
def parse_install_output (package_name : String) (result : UpgradeResult)
    (output : String) : Except CondaErr UpgradeResult :=
  if strContains output already_installed_line then
    .ok result
  else if strContains output new_packages_marker then
    match searchNewPkgs output.toList with
    | none => .error .attributeError
    | some packages_chars =>
      let packages := cre_package_finditer (String.mk packages_chars)
      let new_version :=
        match (packages.filter (fun p => p.1 = package_name)).getLast? with
        | some p => some p.2
        | none => result.new_version
      let installed_dependencies :=
        packages.filter (fun p => p.1 ≠ package_name)
      .ok { result with new_version := new_version,
                        installed_dependencies := installed_dependencies }
  else
    .ok result

/-- Return value of `conda_version_info` as `conda_upgrade` consumes it.
Both fields hold decoded JSON **records**: `installed` is
`installed_versions[0]` (`__init__.py` lines 246-247), itself an element of
`versions`, and `versions` is the decoded record list, assumed sorted
ascending by the package manager. -/
structure VersionInfo where
  installed : Option SearchRecord
  versions : List SearchRecord
deriving DecidableEq, Repr

deriving instance DecidableEq for Except

/-- External state observed by one `conda_upgrade` call: the outcome of the
`conda_version_info` query (`.error .ioError` when the Conda executable is
missing, `.error .calledProcessError` when `conda search` fails), and the
exit code and captured output of the `conda install` subprocess, were it to
be invoked. -/
structure CondaState where
  version_info : Except CondaErr VersionInfo
  install_returncode : Int
  install_output : String
deriving DecidableEq, Repr

/-- `f_major_version(version_info['installed'])` as `conda_upgrade` line
157 actually executes it: the argument is the installed search-record
dictionary, not a version string, and `v.split('.')` on a dict raises
`AttributeError` unconditionally.  (Contrast `microdrop_version.py` lines
50-55, which extract `['version']` before calling `f_major_version`;
`conda_upgrade` does not.) -/
def f_major_version_on_record (_installed_record : SearchRecord) : CondaErr :=
  .attributeError

/-- Target-version computation of `conda_upgrade` (lines 156-162).  The
`match_major_version` branch raises immediately: its first step applies
`f_major_version` to the installed **record** (see
`f_major_version_on_record`), so neither the major-version filter nor the
`[-1]` indexing is ever reached.  Without `match_major_version`, the target
is `version_info['versions'][-1]` — the last record — with `IndexError` on
an empty list. -/
def compute_latest (match_major_version : Bool)
    (installed_record : SearchRecord) (versions : List SearchRecord) :
    Except CondaErr SearchRecord :=
  if match_major_version then
    .error (f_major_version_on_record installed_record)
  else
    match versions.getLast? with
    | none => .error .indexError
    | some v => .ok v

/-- `conda_upgrade` (`__init__.py` lines 87-203).  Returns the Python
outcome (result dictionary or escaped exception) and a flag recording
whether the `conda install` subprocess was invoked. -/
def conda_upgrade (s : CondaState) (package_name : String)
    (match_major_version : Bool) : Except CondaErr UpgradeResult × Bool :=
  match s.version_info with
  | .error .ioError =>
    (.ok { package := package_name, original_version := none,
           new_version := none, installed_dependencies := [] }, false)
  | .error e => (.error e, false)
  | .ok version_info =>
    let result : UpgradeResult :=
      { package := package_name, original_version := version_info.installed,
        new_version := none, installed_dependencies := [] }
    match version_info.installed with
    | none => (.error .distributionNotFound, false)
    | some installed_record =>
      match compute_latest match_major_version installed_record
          version_info.versions with
      | .error e => (.error e, false)
      | .ok latest_version =>
        if installed_record = latest_version then
          (.ok result, false)
        else if s.install_returncode ≠ 0 then
          (.error .runtimeError, true)
        else
          (parse_install_output package_name result s.install_output, true)

/-- The argument list passed to `ch.conda_exec` by `conda_version_info`
(`__init__.py` lines 243-244): the searched package is the hardcoded
literal `'microdrop'`. -/
def conda_search_command : List String :=
  ["search", "-c", "wheeler-microfluidics", "-f", "microdrop", "--json"]

/-- `conda_version_info` (`__init__.py` lines 206-248).  `conda_exec` is the
external package-manager invocation; `decode_microdrop_entry` stands for
`json.loads(json_output)['microdrop']`.  Returns the first installed record
(or `none`) and the full record list. -/
def conda_version_info (conda_exec : List String → String)
    (decode_microdrop_entry : String → List SearchRecord)
    (package_name : String) : Option SearchRecord × List SearchRecord :=
  let json_output := conda_exec conda_search_command
  let versions := decode_microdrop_entry json_output
  let installed_versions := versions.filter (fun v => v.installed)
  let installed_version := installed_versions.head?
  (installed_version, versions)

end CondaPkg

/-! ### JSON-decode guard of `auto_upgrade.py` (lines 100-110)

```
try:
    install_response = json.loads(install_log_json)
except ValueError:
    # Error decoding JSON response.
    # XXX Assume install succeeded.
    ...warn and return...
```
-/

namespace AutoUpgrade

/-- The decode step of `auto_upgrade.main` with its `except ValueError`
handler.  `decode` stands for `json.loads` applied to the stripped install
log; a decode failure is caught and turned into the graceful
warn-and-return path (`none`), never propagated. -/
def handle_install_log {J : Type} (decode : String → Except Unit J)
    (install_log_json : String) : Option J :=
  match decode install_log_json with
  | .error _ => none
  | .ok install_response => some install_response

end AutoUpgrade

/-! ### Profile registry (`profile.py` lines 42-145, `bin/profile_launcher.py`
lines 536-542)

A registry row is a `(path, used_timestamp)` record (the `SAVED_COLUMNS` of
`profile.py`); timestamps are the strings pandas/YAML round-trip through.
`load_profiles_info` filters rows whose directory is missing, replaces the
literal timestamp `'nan'` by the empty string, sorts by `used_timestamp`
descending and drops duplicate paths keeping the first (most recent) row;
the save step of `profile_launcher.main` re-sorts by `used_timestamp`
descending before writing. -/

namespace Registry

/-- One row of the profiles table (`SAVED_COLUMNS = ['used_timestamp',
'path']`). -/
structure ProfileRec where
  path : String
  used_timestamp : String
deriving DecidableEq, Repr

/-- Ordering used by `sort_values('used_timestamp', ascending=False)`:
row `a` comes no later than row `b` when `b`'s timestamp is at most
`a`'s. -/
def tsGe (a b : ProfileRec) : Prop :=
  b.used_timestamp ≤ a.used_timestamp

instance : DecidableRel tsGe :=
  fun a b => inferInstanceAs (Decidable (b.used_timestamp ≤ a.used_timestamp))

instance : IsTotal ProfileRec tsGe :=
  ⟨fun a b => (le_total b.used_timestamp a.used_timestamp).imp id id⟩

instance : IsTrans ProfileRec tsGe :=
  ⟨fun _ _ _ hab hbc => le_trans hbc hab⟩

/-- `df.sort_values('used_timestamp', ascending=False)` (stable sort by
timestamp, descending). -/
def sortDesc (l : List ProfileRec) : List ProfileRec :=
  List.insertionSort tsGe l

/-- `df.drop_duplicates(subset=['path'])`: keep the first row for each
path. -/
def dedupPath : List ProfileRec → List ProfileRec
  | [] => []
  | r :: rs => r :: dedupPath (rs.filter (fun x => x.path ≠ r.path))
termination_by l => l.length
decreasing_by
  simp only [List.length_cons]
  exact Nat.lt_succ_of_le (List.length_filter_le _ _)

/-- The persistence step of `profile_launcher.main` (lines 536-542): sort by
`used_timestamp` descending, then write the `SAVED_COLUMNS` rows. -/
def save_profiles (l : List ProfileRec) : List ProfileRec :=
  sortDesc l

/-- `load_profiles_info` (`profile.py` 42-145).  `isdir` is the file-system
directory test applied to each stored path; `file` is the parsed YAML list
(`none`: file missing or unreadable); `default_rec` stands for the default
profile row that the create/import branch produces when the filtered list is
empty.  After row selection: replace literal `'nan'` timestamps by `''`,
sort by `used_timestamp` descending, drop duplicate paths keeping the
first. -/
def load_profiles_info (isdir : String → Bool) (default_rec : ProfileRec)
    (file : Option (List ProfileRec)) : List ProfileRec :=
  let profiles :=
    match file with
    | some l => l.filter (fun r => isdir r.path)
    | none => []
  let rows := if profiles.isEmpty then [default_rec] else profiles
  let rows := rows.map (fun r =>
    if r.used_timestamp = "nan" then { r with used_timestamp := "" } else r)
  dedupPath (sortDesc rows)

end Registry

/-! ## Theorems -/

/-- C1: the launch loop re-spawns the child exactly when the exit code is 5
and returns the first non-5 exit code: for a child whose successive exit
codes are a run of 5s followed by a first non-5 code `c`, the loop makes
one invocation per leading 5 plus the final one, and returns `c`. -/
theorem launch_loop_returns_first_non_restart (pre : List Int) (c : Int)
    (post : List Int) (hpre : ∀ x ∈ pre, x = 5) (hc : c ≠ 5) :
    run_launch_loop (pre ++ c :: post) = some (c, pre.length + 1) := by
  induction pre with
  | nil => simp [run_launch_loop, hc]
  | cons x xs ih =>
    have hx : x = 5 := hpre x (by simp)
    have hxs : ∀ y ∈ xs, y = 5 := fun y hy => hpre y (by simp [hy])
    subst hx
    simp [run_launch_loop, ih hxs]

/-- Witness for C1: a child returning exit code 5 exactly twice and then 0 is
invoked exactly three times and the loop returns 0. -/
theorem launch_loop_returns_first_non_restart_witness :
    run_launch_loop [5, 5, 0] = some (0, 3) :=
  launch_loop_returns_first_non_restart [5, 5] 0 [] (by decide) (by decide)

/-- C2: whenever the launch loop exits (normal return with a non-restart
exit code, or an exception escaping the child-spawning step), the final
caller-visible state equals the initial one: the working directory is
restored and the environment is untouched (the child only ever receives a
modified copy). -/
theorem launch_profile_restores_world (w : World)
    (profile_path config_file config_parent : String)
    (child : List (String × String) → List (Except ChildExc Int))
    (out : Except ChildExc Int)
    (hexit : (launch_profile_dirs w profile_path config_file config_parent
      child).1 = some out) :
    (launch_profile_dirs w profile_path config_file config_parent child).2
      = w := by
  cases w with
  | mk cwd environ =>
    unfold launch_profile_dirs at hexit ⊢
    cases h : run_loop_exc (child (setEnvVar (setEnvVar environ
        "MICRODROP_PROFILE" profile_path) "MICRODROP_CONFIG" config_file)) with
    | none => simp [h] at hexit
    | some o => simp [h]

/-- Witness for C2: a child that restarts once then raises; the working
directory and environment come back unchanged. -/
theorem launch_profile_restores_world_witness :
    (launch_profile_dirs ⟨"C:/orig", [("PATH", "x")]⟩ "pp" "cf" "cp"
      (fun _ => [Except.ok 5, Except.error ChildExc.err])).2 =
      ⟨"C:/orig", [("PATH", "x")]⟩ :=
  launch_profile_restores_world ⟨"C:/orig", [("PATH", "x")]⟩ "pp" "cf" "cp"
    (fun _ => [Except.ok 5, Except.error ChildExc.err])
    (Except.error ChildExc.err) (by decide)

/-- C3: for a profile whose `RELEASE-VERSION` marker exists and whose marker
and installed version strings both have a leading numeric major component,
`verify_profile_version` succeeds exactly when the two major components
agree, and raises `VersionError` exactly when they differ. -/
theorem verify_profile_version_major_gate (marker installed ma mi : String)
    (hm : Profile.get_major_version marker = some ma)
    (hi : Profile.get_major_version installed = some mi) :
    (Profile.verify_profile_version (some marker) installed =
        .ok () ↔ ma = mi) ∧
    (Profile.verify_profile_version (some marker) installed =
        .error .versionError ↔ ma ≠ mi) := by
  simp only [Profile.verify_profile_version, hm, hi]
  by_cases h : ma = mi <;> simp [h]

/-- Witness for C3: marker `1.3.2` with installed `1.9.0` is compatible;
marker `2.0.0` with installed `1.9.0` raises `VersionError`. -/
theorem verify_profile_version_major_gate_witness :
    Profile.verify_profile_version (some "1.3.2") "1.9.0" = .ok () ∧
    Profile.verify_profile_version (some "2.0.0") "1.9.0" =
      .error .versionError :=
  ⟨(verify_profile_version_major_gate "1.3.2" "1.9.0" "1.0" "1.0"
      (by decide) (by decide)).1.mpr rfl,
    (verify_profile_version_major_gate "2.0.0" "1.9.0" "2.0" "1.0"
      (by decide) (by decide)).2.mpr (by decide)⟩

/-- Helper for C10: `bin/launch.py` `get_major_version` returns 4 whenever
the leading release component is at least 5, because all five probes
`parse_version('%d.0' % i) <= version`, `i = 0..4`, succeed. -/
lemma launchbin_get_major_of_ge_five (u : List Nat) (h : 5 ≤ u.headD 0) :
    LaunchBin.get_major_version u = 4 := by
  cases u with
  | nil => simp at h
  | cons a as =>
    simp only [List.headD_cons] at h
    unfold LaunchBin.get_major_version
    have hcount : (List.range 5).countP
        (fun i => LaunchBin.verLe [i, 0] (a :: as)) = 5 := by
      have hlen : ((List.range 5).countP
          (fun i => LaunchBin.verLe [i, 0] (a :: as))) =
          (List.range 5).length := by
        rw [List.countP_eq_length]
        intro i hi
        have hi5 : i < 5 := List.mem_range.mp hi
        have hia : i < a := lt_of_lt_of_le hi5 h
        simp [LaunchBin.verLe, hia]
      simpa using hlen
    rw [hcount]
    rfl

/-- C10: the major-version extraction of `bin/launch.py` caps at 4: every
version whose leading numeric component is 5 or more gets major version 4,
so any two such versions are classified as equal-major and pass the
compatibility gate of `main` together. -/
theorem launchbin_major_version_caps_at_four (v w : List Nat)
    (hv : 5 ≤ v.headD 0) (hw : 5 ≤ w.headD 0) :
    LaunchBin.get_major_version v = 4 ∧ LaunchBin.get_major_version w = 4 ∧
    LaunchBin.version_gate_passes v w = true := by
  have h1 := launchbin_get_major_of_ge_five v hv
  have h2 := launchbin_get_major_of_ge_five w hw
  refine ⟨h1, h2, ?_⟩
  simp [LaunchBin.version_gate_passes, h1, h2]

/-- Witness for C10: versions 5.1 and 6.0 both get major 4 and pass the gate
together. -/
theorem launchbin_major_version_caps_at_four_witness :
    LaunchBin.get_major_version [5, 1] = 4 ∧
    LaunchBin.get_major_version [6, 0] = 4 ∧
    LaunchBin.version_gate_passes [5, 1] [6, 0] = true :=
  launchbin_major_version_caps_at_four [5, 1] [6, 0] (by decide) (by decide)

/-- C9: `conda_version_info` queries the hardcoded package `'microdrop'`
(the literal appears in the `conda search` argument list) and its result
does not depend on the `package_name` parameter: any two package names give
identical results under the same external state. -/
theorem conda_version_info_ignores_package_name
    (conda_exec : List String → String)
    (decode : String → List CondaPkg.SearchRecord) (p q : String) :
    CondaPkg.conda_version_info conda_exec decode p =
      CondaPkg.conda_version_info conda_exec decode q ∧
    "microdrop" ∈ CondaPkg.conda_search_command :=
  ⟨rfl, by decide⟩

/-- C7: when the version-info query succeeds and reports the package as not
installed, `conda_upgrade` raises `DistributionNotFound` and never invokes
the install subprocess. -/
theorem conda_upgrade_not_installed_raises (s : CondaPkg.CondaState)
    (pn : String) (mmv : Bool) (vi : CondaPkg.VersionInfo)
    (hok : s.version_info = .ok vi) (hnone : vi.installed = none) :
    CondaPkg.conda_upgrade s pn mmv =
      (.error .distributionNotFound, false) := by
  unfold CondaPkg.conda_upgrade
  rw [hok]
  simp [hnone]

/-- Witness for C7 at a concrete state reporting `installed = None`. -/
theorem conda_upgrade_not_installed_raises_witness :
    CondaPkg.conda_upgrade ⟨.ok ⟨none, [⟨"1.0", false⟩]⟩, 0, ""⟩
        "microdrop" false =
      (.error .distributionNotFound, false) :=
  conda_upgrade_not_installed_raises ⟨.ok ⟨none, [⟨"1.0", false⟩]⟩, 0, ""⟩
    "microdrop" false ⟨none, [⟨"1.0", false⟩]⟩ rfl rfl

/-- C6: whenever the captured install output contains the literal line
`# All requested packages already installed.` and `conda_upgrade` returns a
result dictionary, that result has `new_version = None` and an empty
dependency list. -/
theorem conda_upgrade_already_installed_line (s : CondaPkg.CondaState)
    (pn : String) (mmv : Bool) (res : CondaPkg.UpgradeResult) (b : Bool)
    (hline : strContains s.install_output
      CondaPkg.already_installed_line = true)
    (hok : CondaPkg.conda_upgrade s pn mmv = (.ok res, b)) :
    res.new_version = none ∧ res.installed_dependencies = [] := by
  unfold CondaPkg.conda_upgrade at hok
  split at hok
  · cases hok
    exact ⟨rfl, rfl⟩
  · cases hok
  · simp only at hok
    split at hok
    · cases hok
    · split at hok
      · cases hok
      · split at hok
        · cases hok
          exact ⟨rfl, rfl⟩
        · split at hok
          · cases hok
          · unfold CondaPkg.parse_install_output at hok
            rw [if_pos hline] at hok
            cases hok
            exact ⟨rfl, rfl⟩

/-- Witness for C6: a state whose install output is the already-installed
line; the returned result has no new version and no dependencies. -/
theorem conda_upgrade_already_installed_line_witness :
    (⟨"microdrop", some ⟨"1.0", true⟩, none,
        ([] : List (String × String))⟩ :
        CondaPkg.UpgradeResult).new_version = none ∧
    (⟨"microdrop", some ⟨"1.0", true⟩, none,
        ([] : List (String × String))⟩ :
        CondaPkg.UpgradeResult).installed_dependencies = [] :=
  conda_upgrade_already_installed_line
    ⟨.ok ⟨some ⟨"1.0", true⟩, [⟨"1.0", true⟩, ⟨"2.0", false⟩]⟩, 0,
      "# All requested packages already installed.\n"⟩
    "microdrop" false ⟨"microdrop", some ⟨"1.0", true⟩, none, []⟩ true
    (by decide) (by decide)

/-- Helper for C4: the target record computed by `conda_upgrade` is a fixed
point of the target computation — recomputing the target with the target
itself as the installed record yields the target again (the available
record list being unchanged).  With `match_major_version` the target
computation raises before producing a target, so the hypothesis settles
that case. -/
lemma compute_latest_fixpoint (mmv : Bool) (v t : CondaPkg.SearchRecord)
    (versions : List CondaPkg.SearchRecord)
    (h : CondaPkg.compute_latest mmv v versions = .ok t) :
    CondaPkg.compute_latest mmv t versions = .ok t := by
  unfold CondaPkg.compute_latest at h ⊢
  cases mmv with
  | false => exact h
  | true => exact absurd h (by simp [CondaPkg.f_major_version_on_record])

/-- Fidelity note for C4 (standalone fact, not a claim): every
`match_major_version=True` call of `conda_upgrade` on a state whose
version-info query succeeded with an installed package raises
`AttributeError`, because `f_major_version` is applied to the installed
search **record** rather than to a version string. -/
lemma conda_upgrade_match_major_raises (s : CondaPkg.CondaState)
    (pn : String) (vi : CondaPkg.VersionInfo) (v : CondaPkg.SearchRecord)
    (hok : s.version_info = .ok vi) (hinst : vi.installed = some v) :
    CondaPkg.conda_upgrade s pn true = (.error .attributeError, false) := by
  unfold CondaPkg.conda_upgrade
  rw [hok]
  simp [hinst, CondaPkg.compute_latest, CondaPkg.f_major_version_on_record]

/-- C4: `conda_upgrade` is a no-op when the computed target version equals
the installed version — it returns a result with `new_version = None`
without invoking the install subprocess; consequently a second consecutive
call, on an external state whose installed record is the record the first
call targeted and whose available-record list is unchanged, also yields
`new_version = None` without installing.  A target is only ever computed on
the default `match_major_version=False` path: with `True` the target
computation raises `AttributeError` first (see
`conda_upgrade_match_major_raises`), so the `mmv = true` instances of the
`compute_latest ... = .ok ...` hypotheses are unsatisfiable and the claim's
content lives entirely in the default path. -/
theorem conda_upgrade_noop_and_idempotent :
    (∀ (s : CondaPkg.CondaState) (pn : String) (mmv : Bool)
        (vi : CondaPkg.VersionInfo) (v : CondaPkg.SearchRecord),
        s.version_info = .ok vi → vi.installed = some v →
        CondaPkg.compute_latest mmv v vi.versions = .ok v →
        CondaPkg.conda_upgrade s pn mmv =
          (.ok { package := pn, original_version := some v,
                 new_version := none, installed_dependencies := [] },
            false)) ∧
    (∀ (s1 s2 : CondaPkg.CondaState) (pn : String) (mmv : Bool)
        (vi1 vi2 : CondaPkg.VersionInfo) (v t : CondaPkg.SearchRecord),
        s1.version_info = .ok vi1 → vi1.installed = some v →
        CondaPkg.compute_latest mmv v vi1.versions = .ok t →
        s2.version_info = .ok vi2 → vi2.versions = vi1.versions →
        vi2.installed = some t →
        CondaPkg.conda_upgrade s2 pn mmv =
          (.ok { package := pn, original_version := some t,
                 new_version := none, installed_dependencies := [] },
            false)) := by
  have noop : ∀ (s : CondaPkg.CondaState) (pn : String) (mmv : Bool)
      (vi : CondaPkg.VersionInfo) (v : CondaPkg.SearchRecord),
      s.version_info = .ok vi → vi.installed = some v →
      CondaPkg.compute_latest mmv v vi.versions = .ok v →
      CondaPkg.conda_upgrade s pn mmv =
        (.ok { package := pn, original_version := some v,
               new_version := none, installed_dependencies := [] },
          false) := by
    intro s pn mmv vi v hok hinst htgt
    unfold CondaPkg.conda_upgrade
    rw [hok]
    simp only [hinst, htgt]
    simp [hinst]
  refine ⟨noop, ?_⟩
  intro s1 s2 pn mmv vi1 vi2 v t h1 hv htgt h2 hvers hinst2
  have htgt2 : CondaPkg.compute_latest mmv t vi2.versions = .ok t := by
    rw [hvers]
    exact compute_latest_fixpoint mmv v t vi1.versions htgt
  exact noop s2 pn mmv vi2 t h2 hinst2 htgt2

/-- Witness for C4: both conjuncts applied at concrete record-typed states
on the default `match_major_version=False` path — a state whose installed
record is already the target record (no-op), and a second call after an
upgrade whose installed record is now the record the first call
targeted. -/
theorem conda_upgrade_noop_and_idempotent_witness :
    CondaPkg.conda_upgrade
        ⟨.ok ⟨some ⟨"2.0", true⟩, [⟨"1.0", false⟩, ⟨"2.0", true⟩]⟩, 0,
          "zzz"⟩ "microdrop" false =
      (.ok { package := "microdrop", original_version := some ⟨"2.0", true⟩,
             new_version := none, installed_dependencies := [] }, false) ∧
    CondaPkg.conda_upgrade
        ⟨.ok ⟨some ⟨"2.0", false⟩, [⟨"1.0", true⟩, ⟨"2.0", false⟩]⟩, 0,
          "yyy"⟩ "microdrop" false =
      (.ok { package := "microdrop",
             original_version := some ⟨"2.0", false⟩,
             new_version := none, installed_dependencies := [] }, false) :=
  ⟨conda_upgrade_noop_and_idempotent.1
      ⟨.ok ⟨some ⟨"2.0", true⟩, [⟨"1.0", false⟩, ⟨"2.0", true⟩]⟩, 0, "zzz"⟩
      "microdrop" false
      ⟨some ⟨"2.0", true⟩, [⟨"1.0", false⟩, ⟨"2.0", true⟩]⟩ ⟨"2.0", true⟩
      rfl rfl (by decide),
    conda_upgrade_noop_and_idempotent.2
      ⟨.ok ⟨some ⟨"1.0", true⟩, [⟨"1.0", true⟩, ⟨"2.0", false⟩]⟩, 0, "xxx"⟩
      ⟨.ok ⟨some ⟨"2.0", false⟩, [⟨"1.0", true⟩, ⟨"2.0", false⟩]⟩, 0, "yyy"⟩
      "microdrop" false
      ⟨some ⟨"1.0", true⟩, [⟨"1.0", true⟩, ⟨"2.0", false⟩]⟩
      ⟨some ⟨"2.0", false⟩, [⟨"1.0", true⟩, ⟨"2.0", false⟩]⟩
      ⟨"1.0", true⟩ ⟨"2.0", false⟩ rfl rfl (by decide) rfl rfl rfl⟩

/-- Counterexample for C5: captured install output that announces new
packages (`The following NEW packages will be INSTALLED`) but lacks the
`Linking packages` summary structure makes `conda_upgrade`'s output parser
raise `AttributeError` (from `match.group` on a failed `re.search`) instead
of degrading to an assume-succeeded result. -/
theorem conda_upgrade_parser_raises_counterexample :
    CondaPkg.conda_upgrade
      ⟨.ok ⟨some ⟨"1.0", true⟩, [⟨"1.0", true⟩, ⟨"2.0", false⟩]⟩, 0,
        "The following NEW packages will be INSTALLED"⟩ "microdrop" false =
      (.error .attributeError, true) := by
  decide

/-- C5 (amended): the upgrade output parser of `conda_upgrade` raises
exactly when the output lacks the already-installed line, contains the
NEW-packages announcement, and the summary regex search fails; output that
fails JSON decoding in the launcher self-upgrade (`auto_upgrade.py`) is
caught and degrades gracefully rather than propagating. -/
theorem conda_parse_error_characterization (pn : String)
    (res : CondaPkg.UpgradeResult) (out : String) :
    ((∃ e, CondaPkg.parse_install_output pn res out = .error e) ↔
      (strContains out CondaPkg.already_installed_line = false ∧
        strContains out CondaPkg.new_packages_marker = true ∧
        CondaPkg.searchNewPkgs out.toList = none)) ∧
    (∀ (J : Type) (decode : String → Except Unit J) (log : String),
      decode log = .error () →
      AutoUpgrade.handle_install_log decode log = none) := by
  constructor
  · unfold CondaPkg.parse_install_output
    by_cases h1 : strContains out CondaPkg.already_installed_line = true
    · simp [h1]
    · have h1f : strContains out CondaPkg.already_installed_line = false :=
        by simpa using h1
      by_cases h2 : strContains out CondaPkg.new_packages_marker = true
      · cases h3 : CondaPkg.searchNewPkgs out.toList with
        | none => simp [h1f, h2, h3]
        | some g => simp [h1f, h2, h3]
      · have h2f : strContains out CondaPkg.new_packages_marker = false :=
          by simpa using h2
        simp [h1f, h2f]
  · intro J decode log hd
    unfold AutoUpgrade.handle_install_log
    rw [hd]

/-- Witness for the amended C5: the counterexample output satisfies the
error characterization, and a failing JSON decode is absorbed. -/
theorem conda_parse_error_characterization_witness :
    (∃ e, CondaPkg.parse_install_output "microdrop"
        ⟨"microdrop", some ⟨"1.0", true⟩, none, []⟩
        "The following NEW packages will be INSTALLED" = .error e) ∧
    AutoUpgrade.handle_install_log
        (fun _ => (.error () : Except Unit Nat)) "x" = none :=
  ⟨(conda_parse_error_characterization "microdrop"
      ⟨"microdrop", some ⟨"1.0", true⟩, none, []⟩
      "The following NEW packages will be INSTALLED").1.mpr (by decide),
    (conda_parse_error_characterization "microdrop"
      ⟨"microdrop", some ⟨"1.0", true⟩, none, []⟩
      "The following NEW packages will be INSTALLED").2 Nat
      (fun _ => .error ()) "x" rfl⟩

/-- Helper for C8: the registry sort produces a list sorted by
`used_timestamp` descending. -/
lemma sortDesc_sorted (l : List Registry.ProfileRec) :
    List.Sorted Registry.tsGe (Registry.sortDesc l) :=
  List.sorted_insertionSort Registry.tsGe l

/-- Helper for C8: sorting an already-sorted list is the identity. -/
lemma sortDesc_of_sorted {l : List Registry.ProfileRec}
    (h : List.Sorted Registry.tsGe l) : Registry.sortDesc l = l :=
  List.Sorted.insertionSort_eq h

/-- Helper for C8: the registry sort permutes its input. -/
lemma sortDesc_perm (l : List Registry.ProfileRec) :
    List.Perm (Registry.sortDesc l) l :=
  List.perm_insertionSort Registry.tsGe l

/-- Helper for C8: dropping duplicate paths yields a sublist. -/
lemma dedupPath_sublist (l : List Registry.ProfileRec) :
    List.Sublist (Registry.dedupPath l) l := by
  induction l using Registry.dedupPath.induct with
  | case1 => simp [Registry.dedupPath]
  | case2 r rs ih =>
    rw [Registry.dedupPath]
    exact List.Sublist.cons₂ r (ih.trans (List.filter_sublist rs))

/-- Helper for C8: after dropping duplicate paths, the paths are pairwise
distinct. -/
lemma dedupPath_paths_nodup (l : List Registry.ProfileRec) :
    ((Registry.dedupPath l).map Registry.ProfileRec.path).Nodup := by
  induction l using Registry.dedupPath.induct with
  | case1 => simp [Registry.dedupPath]
  | case2 r rs ih =>
    rw [Registry.dedupPath]
    refine List.nodup_cons.mpr ⟨?_, ih⟩
    intro hmem
    obtain ⟨x, hx, hpath⟩ := List.mem_map.mp hmem
    have hxf : x ∈ rs.filter (fun y => y.path ≠ r.path) :=
      (dedupPath_sublist _).subset hx
    have : (x.path ≠ r.path) := by simpa using List.of_mem_filter hxf
    exact this hpath

/-- Helper for C8: dropping duplicate paths preserves the set of paths. -/
lemma dedupPath_paths_toFinset (l : List Registry.ProfileRec) :
    ((Registry.dedupPath l).map Registry.ProfileRec.path).toFinset =
      (l.map Registry.ProfileRec.path).toFinset := by
  induction l using Registry.dedupPath.induct with
  | case1 => simp [Registry.dedupPath]
  | case2 r rs ih =>
    rw [Registry.dedupPath]
    ext a
    simp only [List.map_cons, List.toFinset_cons, Finset.mem_insert,
      List.mem_toFinset, List.mem_map, ih, List.mem_filter,
      decide_eq_true_eq]
    constructor
    · rintro (rfl | ⟨x, ⟨hx, _⟩, rfl⟩)
      · exact Or.inl rfl
      · exact Or.inr ⟨x, hx, rfl⟩
    · rintro (rfl | ⟨x, hx, rfl⟩)
      · exact Or.inl rfl
      · by_cases hxr : x.path = r.path
        · exact Or.inl hxr
        · exact Or.inr ⟨x, ⟨hx, hxr⟩, rfl⟩

/-- Helper for C8: dropping duplicate paths preserves sortedness. -/
lemma dedupPath_sorted {l : List Registry.ProfileRec}
    (h : List.Sorted Registry.tsGe l) :
    List.Sorted Registry.tsGe (Registry.dedupPath l) :=
  List.Pairwise.sublist (dedupPath_sublist l) h

/-- C8: registry round-trip.  For a non-empty registry `R` whose profile
directories all exist and whose timestamps are not the literal `'nan'`,
`save(load(save(R)))` equals `R` sorted most-recently-used first with
duplicate paths collapsed to the first (most recent) occurrence; its path
set equals that of `R`, the persisted list is sorted by `used_timestamp`
descending, and its paths are duplicate-free. -/
theorem profiles_round_trip (isdir : String → Bool)
    (default_rec : Registry.ProfileRec) (R : List Registry.ProfileRec)
    (hdir : ∀ r ∈ R, isdir r.path = true)
    (hnan : ∀ r ∈ R, r.used_timestamp ≠ "nan")
    (hne : R ≠ []) :
    Registry.save_profiles (Registry.load_profiles_info isdir default_rec
        (some (Registry.save_profiles R))) =
      Registry.dedupPath (Registry.sortDesc R) ∧
    ((Registry.save_profiles (Registry.load_profiles_info isdir default_rec
        (some (Registry.save_profiles R)))).map
        Registry.ProfileRec.path).toFinset =
      (R.map Registry.ProfileRec.path).toFinset ∧
    List.Sorted Registry.tsGe
      (Registry.save_profiles (Registry.load_profiles_info isdir default_rec
        (some (Registry.save_profiles R)))) ∧
    ((Registry.save_profiles (Registry.load_profiles_info isdir default_rec
        (some (Registry.save_profiles R)))).map
        Registry.ProfileRec.path).Nodup := by
  have hfilter : (Registry.sortDesc R).filter (fun r => isdir r.path) =
      Registry.sortDesc R :=
    List.filter_eq_self.mpr fun r hr =>
      hdir r ((sortDesc_perm R).subset hr)
  have hsne : Registry.sortDesc R ≠ [] := by
    intro h
    exact hne (List.Perm.eq_nil ((sortDesc_perm R).symm.trans (h ▸
      List.Perm.refl _)))
  have hempty : (Registry.sortDesc R).isEmpty = false := by
    cases hs : Registry.sortDesc R with
    | nil => exact absurd hs hsne
    | cons a as => rfl
  have hmap : (Registry.sortDesc R).map (fun r =>
      if r.used_timestamp = "nan" then { r with used_timestamp := "" }
      else r) = Registry.sortDesc R := by
    have := List.map_congr_left (l := Registry.sortDesc R)
      (f := fun r => if r.used_timestamp = "nan" then
        { r with used_timestamp := "" } else r) (g := id)
      (fun r hr => by
        have : r.used_timestamp ≠ "nan" := hnan r ((sortDesc_perm R).subset hr)
        simp [this])
    simpa using this
  have hload : Registry.load_profiles_info isdir default_rec
      (some (Registry.save_profiles R)) =
      Registry.dedupPath (Registry.sortDesc R) := by
    simp only [Registry.load_profiles_info, Registry.save_profiles]
    rw [hfilter, hempty]
    simp only [Bool.false_eq_true, if_false]
    rw [hmap, sortDesc_of_sorted (sortDesc_sorted R)]
  have hsorted : List.Sorted Registry.tsGe
      (Registry.dedupPath (Registry.sortDesc R)) :=
    dedupPath_sorted (sortDesc_sorted R)
  have hsave : Registry.save_profiles (Registry.load_profiles_info isdir
      default_rec (some (Registry.save_profiles R))) =
      Registry.dedupPath (Registry.sortDesc R) := by
    rw [hload]
    exact sortDesc_of_sorted hsorted
  refine ⟨hsave, ?_, ?_, ?_⟩
  · rw [hsave, dedupPath_paths_toFinset]
    exact List.toFinset_eq_of_perm _ _ ((sortDesc_perm R).map _)
  · rw [hsave]
    exact hsorted
  · rw [hsave]
    exact dedupPath_paths_nodup _

/-- Witness for C8 at a concrete three-row registry with one duplicated
path. -/
theorem profiles_round_trip_witness :
    Registry.save_profiles (Registry.load_profiles_info (fun _ => true)
        ⟨"/d", ""⟩ (some (Registry.save_profiles
          [⟨"/a", "2024-01-01"⟩, ⟨"/b", "2024-02-01"⟩,
            ⟨"/a", "2023-01-01"⟩]))) =
      Registry.dedupPath (Registry.sortDesc
        [⟨"/a", "2024-01-01"⟩, ⟨"/b", "2024-02-01"⟩,
          ⟨"/a", "2023-01-01"⟩]) :=
  (profiles_round_trip (fun _ => true) ⟨"/d", ""⟩
    [⟨"/a", "2024-01-01"⟩, ⟨"/b", "2024-02-01"⟩, ⟨"/a", "2023-01-01"⟩]
    (fun _ _ => rfl) (by decide) (by decide)).1

end MicrodropLauncher
